import Mathlib

/-!
Shallow embedding of the focus-pipeline ingestion engine
(`src/data_pipeline.py`) and proofs about its claims.

Modelling conventions:
* A pandas `DataFrame` is a column-name list plus a list of rows; a row is
  an association list from column name to cell value (a cell absent from a
  row is a SQL NULL / pandas NaN).
* The SQLite database (`processed_files.db`) is a `DBState`: the
  `processed_files` table (file names, UNIQUE-constrained), and the
  `dataset` table (its column list, created with the single column `id`,
  plus its appended rows).
* External collaborators that can raise are modelled by explicit Boolean
  failure flags: `convFails` (the focus-converter library raises inside
  `convert_csv_to_focus`), `readFails` (`pd.read_csv` raises), and
  `appendOk` (the `df.to_sql` append inside `store_in_db` either commits
  or raises).  `pd.to_datetime` is an opaque-to-us value normalizer passed
  as a function parameter `toDT`.
* File-system state (input directory, archive directory, collaborator
  output artifacts) lives in `PipelineState`.
-/

namespace FocusPipeline

/-- A row of tabular data: cells keyed by column name.  A missing key is a
null cell. -/
abbrev Row := List (String × String)

/-- A pandas DataFrame: its column names and its rows. -/
structure DataFrame where
  cols : List String
  rows : List Row
deriving DecidableEq

/-- The persistent SQLite state created by `SQLiteDatabaseManager.init_db`:
the `processed_files` table and the `dataset` table (columns + rows). -/
structure DBState where
  processed_files : List String
  dataset_cols : List String
  dataset_rows : List Row
deriving DecidableEq

/-- `init_db`: `processed_files` empty; `dataset` created with only the
autoincrement `id` column; no rows. -/
def init_db : DBState :=
  { processed_files := [], dataset_cols := ["id"], dataset_rows := [] }

/-- `SQLiteDatabaseManager.is_file_processed`: `SELECT COUNT(*) FROM
processed_files WHERE file_name = ?` and compare the count with 0. -/
def is_file_processed (db : DBState) (file_name : String) : Bool :=
  decide (0 < db.processed_files.countP (fun r => r == file_name))

/-- `SQLiteDatabaseManager.mark_file_as_processed`: `INSERT OR IGNORE INTO
processed_files (file_name) VALUES (?)` — the UNIQUE constraint on
`file_name` makes the insert a no-op when the name is already present. -/
def mark_file_as_processed (db : DBState) (file_name : String) : DBState :=
  if db.processed_files.contains file_name then db
  else { db with processed_files := db.processed_files ++ [file_name] }

/-- `SQLiteDatabaseManager.add_missing_columns`: computes the set
`df.columns - existing_columns` (set difference, hence the `dedup`) and
issues `ALTER TABLE dataset ADD COLUMN c TEXT` for each member, then
commits on its own connection. -/
def add_missing_columns (db : DBState) (df : DataFrame) : DBState :=
  let missing := df.cols.dedup.filter (fun c => !db.dataset_cols.contains c)
  { db with dataset_cols := db.dataset_cols ++ missing }

/-- `SQLiteDatabaseManager.store_in_db`: first `add_missing_columns df`
(which commits the schema change on its own connection), then
`df.to_sql(dataset, if_exists=append)`.  `appendOk = false` models the
`to_sql` call raising after the schema change has already been committed:
the exception propagates to the caller with the new columns persisted and
no rows appended. -/
def store_in_db (db : DBState) (df : DataFrame) (appendOk : Bool) : DBState :=
  let db1 := add_missing_columns db df
  if appendOk then { db1 with dataset_rows := db1.dataset_rows ++ df.rows }
  else db1

/-- The per-DataFrame `Date` normalization in
`DatasetBuilder.build_dataset`: if the frame has a `Date` column, map
`pd.to_datetime` (the parameter `toDT`) over that column's cells. -/
def normalizeDates (toDT : String → String) (df : DataFrame) : DataFrame :=
  if df.cols.contains "Date" then
    { df with rows := df.rows.map (fun r =>
        r.map (fun cv => if cv.1 == "Date" then (cv.1, toDT cv.2) else cv)) }
  else df

/-- `pd.concat(dataframes, ignore_index=True)`: the column set is the
union (first-appearance order) of the frames' columns; the rows are all
frames' rows in order; a row keeps only its own cells, so cells of columns
it lacks are null. -/
def concatDataFrames (dfs : List DataFrame) : DataFrame :=
  { cols := dfs.foldl (fun acc df => acc ++ df.cols.filter (fun c => !acc.contains c)) []
    rows := dfs.foldl (fun acc df => acc ++ df.rows) [] }

/-- `DatasetBuilder.build_dataset`: normalize `Date` columns, and if the
batch is non-empty, concatenate and `store_in_db`.  Empty batch: no-op. -/
def build_dataset (toDT : String → String) (db : DBState)
    (dataframes : List DataFrame) (appendOk : Bool) : DBState :=
  let dfs := dataframes.map (normalizeDates toDT)
  if dfs.isEmpty then db
  else store_in_db db (concatDataFrames dfs) appendOk

/-- One candidate source file as the pipeline sees it: its path, the
content `pd.read_csv(path)` would return, the artifacts the conversion
collaborator would export to the output folder, and whether the
collaborator / the raw read raise on this file. -/
structure FileSpec where
  path : String
  raw : DataFrame
  converted : DataFrame
  convFails : Bool
  readFails : Bool
deriving DecidableEq

/-- The observable world state of the pipeline: the database, the
collaborator's exported artifacts (output folder), the input directory's
file list, and the archive directory's base names. -/
structure PipelineState where
  db : DBState
  output : List DataFrame
  input : List String
  archive : List String
deriving DecidableEq

/-- How a call to `convert_csv_to_focus` terminates, as seen by its
caller: either the `already been processed` exception is raised, or the
method returns normally (it returns `None` both when the conversion
succeeded and when the collaborator's exception was caught and logged). -/
inductive ConvResult where
  | raisedAlreadyProcessed
  | returnedNone
deriving DecidableEq

/-- Bookkeeping for one `convert_csv_to_focus` call: how it terminated,
whether the conversion collaborator was invoked, and whether
`mark_file_as_processed` was called. -/
structure ConvFlags where
  result : ConvResult
  collaboratorInvoked : Bool
  markCalled : Bool
deriving DecidableEq

/-- `FocusConverterService.convert_csv_to_focus`: raise if the file is
already processed; otherwise invoke the collaborator inside
`try`/`except` — on success export the artifacts and mark the file
processed, on collaborator failure log and swallow the exception,
returning normally with no state change. -/
def convert_csv_to_focus (st : PipelineState) (f : FileSpec) :
    PipelineState × ConvFlags :=
  if is_file_processed st.db f.path then
    (st, ⟨.raisedAlreadyProcessed, false, false⟩)
  else if f.convFails then
    (st, ⟨.returnedNone, true, false⟩)
  else
    ({ st with db := mark_file_as_processed st.db f.path
               output := st.output ++ [f.converted] },
     ⟨.returnedNone, true, true⟩)

/-- `os.path.basename`: the suffix of the path after its last slash. -/
def basename (p : String) : String :=
  ⟨(p.data.reverse.takeWhile (fun c => c != '/')).reverse⟩

/-- `archive_file` (identical in `Handler` and `Pipeline`):
`shutil.move(file_path, archive_folder/basename(file_path))` — the file
leaves the input directory and its base name appears in the archive
directory. -/
def archive_file (st : PipelineState) (file_path : String) : PipelineState :=
  { st with input := st.input.erase file_path
            archive := st.archive ++ [basename file_path] }

/-- `Handler.process` (the watch-triggered per-file worker), with its
outer `try`/`except`: convert (an `already processed` raise is caught and
ends the call), then `pd.read_csv` the source path (a raise is caught),
then `build_dataset [df]` (an append failure raises out of `store_in_db`
and is caught after the schema change persisted), then archive and clean.
-/
def handler_process (toDT : String → String) (st : PipelineState)
    (f : FileSpec) (appendOk : Bool) : PipelineState :=
  let (st1, flags) := convert_csv_to_focus st f
  match flags.result with
  | .raisedAlreadyProcessed => st1
  | .returnedNone =>
    if f.readFails then st1
    else
      let db2 := build_dataset toDT st1.db [f.raw] appendOk
      let st2 := { st1 with db := db2 }
      if appendOk then archive_file st2 f.path else st2

/-- One iteration of the `for file_path in csv_files` loop of
`Pipeline.process_existing_files`, carrying the accumulated `dataframes`
list: convert (an `already processed` raise is caught by the per-file
`except`), read the raw CSV (a raise is caught), append the frame and
archive the file. -/
def catchup_step (acc : PipelineState × List DataFrame) (f : FileSpec) :
    PipelineState × List DataFrame :=
  let (st1, flags) := convert_csv_to_focus acc.1 f
  match flags.result with
  | .raisedAlreadyProcessed => (st1, acc.2)
  | .returnedNone =>
    if f.readFails then (st1, acc.2)
    else (archive_file st1 f.path, acc.2 ++ [f.raw])

/-- `Pipeline.process_existing_files`: the per-file loop over the input
directory's CSV files, then one `build_dataset` call on all collected
frames (then `clean_parquet_folder`, which touches no modelled state). -/
def process_existing_files (toDT : String → String) (st : PipelineState)
    (files : List FileSpec) (appendOk : Bool) : PipelineState :=
  let (st1, dataframes) := files.foldl catchup_step (st, [])
  { st1 with db := build_dataset toDT st1.db dataframes appendOk }

/-- The pipeline's starting state: fresh database, empty output and
archive folders, the given files present in the input directory. -/
def initState (input : List String) : PipelineState :=
  { db := init_db, output := [], input := input, archive := [] }

/-- Concrete fixture: a CSV whose conversion collaborator raises. -/
def fileA : FileSpec :=
  { path := "input/a.csv"
    raw := ⟨["X"], [[("X", "a1")]]⟩
    converted := ⟨["FX"], [[("FX", "fa")]]⟩
    convFails := true
    readFails := false }

/-- Concrete fixture: a CSV whose conversion succeeds; its raw content
differs from the collaborator's exported artifacts. -/
def fileB : FileSpec :=
  { path := "input/b.csv"
    raw := ⟨["Y"], [[("Y", "b1")]]⟩
    converted := ⟨["FY"], [[("FY", "fb")]]⟩
    convFails := false
    readFails := false }

/-- Concrete fixture: the fresh pipeline state with both files in the
input directory. -/
def startState : PipelineState :=
  initState ["input/a.csv", "input/b.csv"]

/-- Concrete fixture: a state in which `fileA.path` already has a
ProcessedFileRecord. -/
def processedState : PipelineState :=
  { db := { processed_files := ["input/a.csv"], dataset_cols := ["id"],
            dataset_rows := [] }
    output := [], input := [], archive := [] }

/-- Concrete batch fixture with one new column `X`. -/
def batchX : DataFrame := ⟨["X"], [[("X", "1")]]⟩

/-- Concrete batch fixture with one new column `Y`. -/
def batchY : DataFrame := ⟨["Y"], [[("Y", "2")]]⟩

/-! ## Helper lemmas (shared) -/

theorem is_file_processed_iff (db : DBState) (n : String) :
    is_file_processed db n = true ↔ n ∈ db.processed_files := by
  simp [is_file_processed, List.countP_pos_iff]

theorem mark_of_mem {db : DBState} {n : String}
    (h : n ∈ db.processed_files) : mark_file_as_processed db n = db := by
  have hc : db.processed_files.contains n = true := List.elem_iff.mpr h
  unfold mark_file_as_processed
  rw [hc]
  simp

theorem mark_of_not_mem {db : DBState} {n : String}
    (h : n ∉ db.processed_files) :
    mark_file_as_processed db n =
      { db with processed_files := db.processed_files ++ [n] } := by
  have hc : db.processed_files.contains n = false := by
    simpa using h
  unfold mark_file_as_processed
  rw [hc]
  simp

theorem countP_mark (db : DBState) (n : String)
    (h : db.processed_files.countP (fun r => r == n) ≤ 1) :
    (mark_file_as_processed db n).processed_files.countP
      (fun r => r == n) = 1 := by
  by_cases hm : n ∈ db.processed_files
  · have hpos : 0 < db.processed_files.countP (fun r => r == n) :=
      List.countP_pos_iff.mpr ⟨n, hm, by simp⟩
    rw [mark_of_mem hm]
    omega
  · have hzero : db.processed_files.countP (fun r => r == n) = 0 := by
      rw [List.countP_eq_zero]
      intro a ha hba
      exact hm ((by simpa using hba : a = n) ▸ ha)
    rw [mark_of_not_mem hm]
    simp [List.countP_append, hzero]

theorem is_file_processed_mark_self (db : DBState) (n : String) :
    is_file_processed (mark_file_as_processed db n) n = true := by
  by_cases hm : n ∈ db.processed_files
  · rw [mark_of_mem hm]
    exact (is_file_processed_iff db n).mpr hm
  · rw [mark_of_not_mem hm]
    refine (is_file_processed_iff _ _).mpr ?_
    simp

theorem convert_of_processed (st : PipelineState) (f : FileSpec)
    (h : is_file_processed st.db f.path = true) :
    convert_csv_to_focus st f =
      (st, ⟨.raisedAlreadyProcessed, false, false⟩) := by
  simp [convert_csv_to_focus, h]

theorem convert_of_convFails (st : PipelineState) (f : FileSpec)
    (h1 : is_file_processed st.db f.path = false) (h2 : f.convFails = true) :
    convert_csv_to_focus st f = (st, ⟨.returnedNone, true, false⟩) := by
  simp [convert_csv_to_focus, h1, h2]

theorem convert_of_success (st : PipelineState) (f : FileSpec)
    (h1 : is_file_processed st.db f.path = false) (h2 : f.convFails = false) :
    convert_csv_to_focus st f =
      ({ st with db := mark_file_as_processed st.db f.path
                 output := st.output ++ [f.converted] },
       ⟨.returnedNone, true, true⟩) := by
  simp [convert_csv_to_focus, h1, h2]

theorem mem_add_missing_columns (db : DBState) (df : DataFrame)
    (c : String) :
    c ∈ (add_missing_columns db df).dataset_cols ↔
      c ∈ db.dataset_cols ∨ c ∈ df.cols := by
  simp [add_missing_columns, List.mem_filter, List.mem_dedup]
  tauto

theorem store_in_db_cols (db : DBState) (df : DataFrame) (ok : Bool) :
    (store_in_db db df ok).dataset_cols =
      (add_missing_columns db df).dataset_cols := by
  cases ok <;> simp [store_in_db]

/-! ## Claims -/

/-- C1: if the Ledger Store's `is_file_processed` check returns true for a
path, then `convert_csv_to_focus` fails immediately (raising the
`already been processed` exception) and performs no further work: the
conversion collaborator is not invoked, `mark_file_as_processed` is not
called again, and the pipeline state is unchanged. -/
theorem c1_already_processed_short_circuit (st : PipelineState)
    (f : FileSpec) (h : is_file_processed st.db f.path = true) :
    convert_csv_to_focus st f =
      (st, ⟨ConvResult.raisedAlreadyProcessed, false, false⟩) :=
  convert_of_processed st f h

/-- Witness for C1 at a concrete already-processed state. -/
theorem c1_already_processed_short_circuit_witness :
    is_file_processed processedState.db fileA.path = true ∧
    convert_csv_to_focus processedState fileA =
      (processedState, ⟨ConvResult.raisedAlreadyProcessed, false, false⟩) :=
  ⟨by decide,
   c1_already_processed_short_circuit processedState fileA (by decide)⟩

/-- C3 counterexample: a collaborator failure does NOT surface to the
caller as a distinct `ConversionFailed` outcome — the failing call (on
`fileA`, whose collaborator raises) returns normally, with the very same
caller-visible result as the succeeding call on `fileB`. -/
theorem c3_failure_not_surfaced_counterexample :
    (convert_csv_to_focus startState fileA).2.result =
      ConvResult.returnedNone ∧
    (convert_csv_to_focus startState fileB).2.result =
      ConvResult.returnedNone ∧
    (convert_csv_to_focus startState fileA).2.result =
      (convert_csv_to_focus startState fileB).2.result := by
  decide

/-- C3 (amended): any collaborator error during `convert_csv_to_focus` on
a not-yet-processed file is caught inside the method and leaves the file
unmarked — no ProcessedFileRecord is created, the whole pipeline state is
unchanged, so a re-delivery can be retried — but the failure does not
surface to the caller as a distinct outcome: the method returns normally,
indistinguishable from success. -/
theorem c3_conversion_failure_swallowed (st : PipelineState) (f : FileSpec)
    (h1 : is_file_processed st.db f.path = false)
    (h2 : f.convFails = true) :
    convert_csv_to_focus st f =
      (st, ⟨ConvResult.returnedNone, true, false⟩) :=
  convert_of_convFails st f h1 h2

/-- Witness for C3 (amended) at the concrete failing file. -/
theorem c3_conversion_failure_swallowed_witness :
    is_file_processed startState.db fileA.path = false ∧
    fileA.convFails = true ∧
    convert_csv_to_focus startState fileA =
      (startState, ⟨ConvResult.returnedNone, true, false⟩) :=
  ⟨by decide, by decide,
   c3_conversion_failure_swallowed startState fileA (by decide) (by decide)⟩

/-- C6 counterexample: `store_in_db` on a fresh database with a batch
carrying the new column `X`, whose row append fails, persists a state
with the new column added but none of the batch's rows — the state is
neither the unchanged one nor the fully-merged one, refuting atomicity. -/
theorem c6_not_atomic_counterexample :
    store_in_db init_db batchX false ≠ init_db ∧
    "X" ∈ (store_in_db init_db batchX false).dataset_cols ∧
    (store_in_db init_db batchX false).dataset_rows = [] := by
  decide

/-- C6 (amended): `store_in_db` is not atomic per batch — the schema
change of `add_missing_columns` is committed first on its own connection,
so on append success the columns and all rows land, while on append
failure the added columns persist with none of the batch's rows. -/
theorem c6_store_schema_committed_first (db : DBState) (df : DataFrame) :
    (store_in_db db df false).dataset_cols =
      (add_missing_columns db df).dataset_cols ∧
    (store_in_db db df false).dataset_rows = db.dataset_rows ∧
    (store_in_db db df true).dataset_cols =
      (add_missing_columns db df).dataset_cols ∧
    (store_in_db db df true).dataset_rows = db.dataset_rows ++ df.rows := by
  simp [store_in_db, add_missing_columns]

/-- C7: schema-union invariant of `store_in_db` — after merging batches
B1 then B2 (whatever each append's outcome), the `dataset` column set is
exactly the union of the prior columns with all columns of B1 and B2; no
pre-existing column is ever removed; and a batch's new columns are
already present in the state produced by `add_missing_columns`, which
`store_in_db` runs before appending that batch's rows. -/
theorem c7_schema_union (db : DBState) (B1 B2 : DataFrame)
    (ok1 ok2 : Bool) (c : String) :
    (c ∈ (store_in_db (store_in_db db B1 ok1) B2 ok2).dataset_cols ↔
      c ∈ db.dataset_cols ∨ c ∈ B1.cols ∨ c ∈ B2.cols) ∧
    (c ∈ db.dataset_cols →
      c ∈ (store_in_db (store_in_db db B1 ok1) B2 ok2).dataset_cols) ∧
    (c ∈ B1.cols → c ∈ (add_missing_columns db B1).dataset_cols) := by
  have hiff : c ∈ (store_in_db (store_in_db db B1 ok1) B2 ok2).dataset_cols ↔
      c ∈ db.dataset_cols ∨ c ∈ B1.cols ∨ c ∈ B2.cols := by
    rw [store_in_db_cols, mem_add_missing_columns, store_in_db_cols,
      mem_add_missing_columns]
    tauto
  refine ⟨hiff, fun h => hiff.mpr (Or.inl h), fun h => ?_⟩
  rw [mem_add_missing_columns]
  exact Or.inr h

/-- Witness for C7 at concrete batches. -/
theorem c7_schema_union_witness :
    (("X" ∈ (store_in_db (store_in_db init_db batchX true)
        batchY true).dataset_cols ↔
      "X" ∈ init_db.dataset_cols ∨ "X" ∈ batchX.cols ∨
        "X" ∈ batchY.cols) ∧
    ("X" ∈ init_db.dataset_cols →
      "X" ∈ (store_in_db (store_in_db init_db batchX true)
        batchY true).dataset_cols) ∧
    ("X" ∈ batchX.cols →
      "X" ∈ (add_missing_columns init_db batchX).dataset_cols)) :=
  c7_schema_union init_db batchX batchY true true "X"

/-- C9: `mark_file_as_processed` is idempotent — called when a record for
the file already exists it is a no-op (it never raises: it is a total
function), leaving exactly one record for the file — and after it
completes, `is_file_processed` returns true. -/
theorem c9_mark_processed_idempotent (db : DBState) (fid : String)
    (hcount : db.processed_files.countP (fun r => r == fid) ≤ 1) :
    (is_file_processed db fid = true →
      mark_file_as_processed db fid = db) ∧
    (mark_file_as_processed db fid).processed_files.countP
      (fun r => r == fid) = 1 ∧
    is_file_processed (mark_file_as_processed db fid) fid = true := by
  refine ⟨fun ht => mark_of_mem ((is_file_processed_iff db fid).mp ht),
    countP_mark db fid hcount, is_file_processed_mark_self db fid⟩

/-- Witness for C9 at a concrete state already holding the record. -/
theorem c9_mark_processed_idempotent_witness :
    (is_file_processed processedState.db "input/a.csv" = true →
      mark_file_as_processed processedState.db "input/a.csv" =
        processedState.db) ∧
    (mark_file_as_processed processedState.db
      "input/a.csv").processed_files.countP
        (fun r => r == "input/a.csv") = 1 ∧
    is_file_processed
      (mark_file_as_processed processedState.db "input/a.csv")
      "input/a.csv" = true :=
  c9_mark_processed_idempotent processedState.db "input/a.csv" (by decide)

/-- C10: `convert_csv_to_focus` lets an exception escape to its caller
only in the already-processed case; on a not-yet-processed path the
method returns normally whether the collaborator succeeded or raised (the
error is caught inside and not re-raised), so the caller observes the
same normal return in both cases. -/
theorem c10_raise_iff_already_processed (st : PipelineState)
    (f : FileSpec) :
    ((convert_csv_to_focus st f).2.result =
        ConvResult.raisedAlreadyProcessed ↔
      is_file_processed st.db f.path = true) ∧
    (is_file_processed st.db f.path = false →
      (convert_csv_to_focus st f).2.result = ConvResult.returnedNone) := by
  by_cases h : is_file_processed st.db f.path = true
  · simp [convert_of_processed st f h, h]
  · have h' : is_file_processed st.db f.path = false := by
      simpa using h
    by_cases hc : f.convFails = true
    · simp [convert_of_convFails st f h' hc, h']
    · have hc' : f.convFails = false := by simpa using hc
      simp [convert_of_success st f h' hc', h']

/-- C2 counterexample: calling `convert_csv_to_focus` twice in sequence
on the same file, whose collaborator raises both times, leaves zero
ProcessedFileRecords (the claim says exactly one) and invokes the
collaborator on both calls (the claim says at most once). -/
theorem c2_twice_counterexample :
    (convert_csv_to_focus
      (convert_csv_to_focus startState fileA).1
        fileA).1.db.processed_files.countP
          (fun r => r == "input/a.csv") = 0 ∧
    (convert_csv_to_focus startState fileA).2.collaboratorInvoked = true ∧
    (convert_csv_to_focus (convert_csv_to_focus startState fileA).1
      fileA).2.collaboratorInvoked = true := by
  decide

/-- C2 (amended): calling `convert_csv_to_focus` twice in sequence on the
same path, when the first call's conversion does not fail, leaves exactly
one ProcessedFileRecord for the path and the collaborator is not invoked
on the second call; a failed first conversion instead leaves the path
unrecorded and the second call invokes the collaborator again. -/
theorem c2_idempotent_after_first_success (st : PipelineState)
    (f1 f2 : FileSpec) (hpath : f2.path = f1.path)
    (hcount : st.db.processed_files.countP (fun r => r == f1.path) ≤ 1)
    (hok : f1.convFails = false) :
    (convert_csv_to_focus (convert_csv_to_focus st f1).1
      f2).1.db.processed_files.countP (fun r => r == f1.path) = 1 ∧
    (convert_csv_to_focus (convert_csv_to_focus st f1).1
      f2).2.collaboratorInvoked = false := by
  by_cases hp : is_file_processed st.db f1.path = true
  · have hpos : 0 < st.db.processed_files.countP (fun r => r == f1.path) :=
      List.countP_pos_iff.mpr
        ⟨f1.path, (is_file_processed_iff st.db f1.path).mp hp, by simp⟩
    have hp2 : is_file_processed st.db f2.path = true := by
      rw [hpath]; exact hp
    simp only [convert_of_processed st f1 hp]
    simp only [convert_of_processed st f2 hp2]
    exact ⟨by omega, by trivial⟩
  · have hp' : is_file_processed st.db f1.path = false := by simpa using hp
    simp only [convert_of_success st f1 hp' hok]
    have hp2 : is_file_processed
        ({ st with db := mark_file_as_processed st.db f1.path
                   output := st.output ++ [f1.converted] } :
          PipelineState).db f2.path = true := by
      rw [hpath]; exact is_file_processed_mark_self st.db f1.path
    simp only [convert_of_processed _ f2 hp2]
    exact ⟨countP_mark st.db f1.path hcount, by trivial⟩

/-- Witness for C2 (amended) at the concrete succeeding file. -/
theorem c2_idempotent_after_first_success_witness :
    (convert_csv_to_focus (convert_csv_to_focus startState fileB).1
      fileB).1.db.processed_files.countP (fun r => r == fileB.path) = 1 ∧
    (convert_csv_to_focus (convert_csv_to_focus startState fileB).1
      fileB).2.collaboratorInvoked = false :=
  c2_idempotent_after_first_success startState fileB fileB rfl
    (by decide) (by decide)

/-- C4 counterexample: in a catch-up pass over `fileA` (conversion fails)
and `fileB` (conversion succeeds), file A produces no ProcessedFileRecord
— but its raw row IS appended to the `dataset` table, refuting the claim
that A contributes no rows. -/
theorem c4_failed_file_rows_counterexample :
    [("X", "a1")] ∈ (process_existing_files id startState
      [fileA, fileB] true).db.dataset_rows ∧
    is_file_processed (process_existing_files id startState
      [fileA, fileB] true).db "input/a.csv" = false ∧
    [("Y", "b1")] ∈ (process_existing_files id startState
      [fileA, fileB] true).db.dataset_rows := by
  decide

/-- C4 (amended): in a single catch-up pass over A (conversion fails) and
B (conversion succeeds), B's rows appear in the `dataset` table and A
produces no ProcessedFileRecord — but because the conversion failure is
swallowed and the loop then reads the raw CSV, A's raw rows are also
appended to the `dataset` table. -/
theorem c4_failure_isolation_amended (toDT : String → String)
    (inputs : List String) (A B : FileSpec)
    (hA : A.convFails = true) (hB : B.convFails = false)
    (hAr : A.readFails = false) (hBr : B.readFails = false)
    (hne : B.path ≠ A.path) :
    (∀ r ∈ (normalizeDates toDT B.raw).rows,
      r ∈ (process_existing_files toDT (initState inputs)
        [A, B] true).db.dataset_rows) ∧
    is_file_processed (process_existing_files toDT (initState inputs)
      [A, B] true).db B.path = true ∧
    is_file_processed (process_existing_files toDT (initState inputs)
      [A, B] true).db A.path = false ∧
    (∀ r ∈ (normalizeDates toDT A.raw).rows,
      r ∈ (process_existing_files toDT (initState inputs)
        [A, B] true).db.dataset_rows) := by
  have hbe : (B.path == A.path) = false := by
    simpa using hne
  simp [process_existing_files, catchup_step, convert_csv_to_focus,
    build_dataset, concatDataFrames, store_in_db, add_missing_columns,
    mark_file_as_processed, archive_file, initState, init_db,
    is_file_processed, hA, hB, hAr, hBr, hbe]
  exact ⟨fun r hr => Or.inr hr, fun r hr => Or.inl hr⟩

/-- Witness for C4 (amended) at the concrete pair of files. -/
theorem c4_failure_isolation_amended_witness :
    (∀ r ∈ (normalizeDates id fileB.raw).rows,
      r ∈ (process_existing_files id (initState
        ["input/a.csv", "input/b.csv"])
        [fileA, fileB] true).db.dataset_rows) ∧
    is_file_processed (process_existing_files id (initState
      ["input/a.csv", "input/b.csv"])
      [fileA, fileB] true).db fileB.path = true ∧
    is_file_processed (process_existing_files id (initState
      ["input/a.csv", "input/b.csv"])
      [fileA, fileB] true).db fileA.path = false ∧
    (∀ r ∈ (normalizeDates id fileA.raw).rows,
      r ∈ (process_existing_files id (initState
        ["input/a.csv", "input/b.csv"])
        [fileA, fileB] true).db.dataset_rows) :=
  c4_failure_isolation_amended id ["input/a.csv", "input/b.csv"]
    fileA fileB rfl rfl rfl rfl (by decide)

/-- C5 counterexample: after a catch-up pass over `fileA`, whose
conversion fails at the collaborator, the file's base name is in the
archive directory although it has no ProcessedFileRecord — refuting
archived ↔ recorded. -/
theorem c5_archive_without_record_counterexample :
    basename fileA.path ∈
      (process_existing_files id startState [fileA] true).archive ∧
    is_file_processed (process_existing_files id startState
      [fileA] true).db fileA.path = false := by
  decide

/-- C5 (amended): archive membership is not equivalent to having a
ProcessedFileRecord, in either direction, on either per-file path from a
fresh state (raw read succeeding). In the catch-up pass the file is
archived inside the loop, before the single merge, regardless of
conversion outcome — so a conversion failure leaves it archived without
a record. On the watch-triggered path the file is archived only when the
accumulation append succeeds: a failed append is caught before
`archive_file` runs, leaving the file unarchived even though a
conversion success already recorded it. In all these cases the
ProcessedFileRecord exists exactly when the conversion succeeded,
independent of archiving. -/
theorem c5_archive_vs_record_characterization (toDT : String → String)
    (inputs : List String) (f : FileSpec) (hr : f.readFails = false) :
    basename f.path ∈
      (process_existing_files toDT (initState inputs) [f] true).archive ∧
    is_file_processed (process_existing_files toDT (initState inputs)
      [f] true).db f.path = !f.convFails ∧
    basename f.path ∈
      (handler_process toDT (initState inputs) f true).archive ∧
    (handler_process toDT (initState inputs) f false).archive = [] ∧
    is_file_processed (handler_process toDT (initState inputs)
      f false).db f.path = !f.convFails := by
  cases hc : f.convFails <;>
    simp [process_existing_files, catchup_step, handler_process,
      convert_csv_to_focus, build_dataset, concatDataFrames, store_in_db,
      add_missing_columns, mark_file_as_processed, archive_file,
      initState, init_db, is_file_processed, hc, hr]

/-- Witness for C5 (amended) at the concrete files: the failing
conversion on the catch-up path and the succeeding conversion on the
watch path with a failing append. -/
theorem c5_archive_vs_record_characterization_witness :
    (basename fileA.path ∈
      (process_existing_files id (initState
        ["input/a.csv", "input/b.csv"]) [fileA] true).archive ∧
    is_file_processed (process_existing_files id (initState
      ["input/a.csv", "input/b.csv"]) [fileA] true).db fileA.path =
        !fileA.convFails ∧
    basename fileA.path ∈
      (handler_process id (initState ["input/a.csv", "input/b.csv"])
        fileA true).archive ∧
    (handler_process id (initState ["input/a.csv", "input/b.csv"])
      fileA false).archive = [] ∧
    is_file_processed (handler_process id (initState
      ["input/a.csv", "input/b.csv"]) fileA false).db fileA.path =
        !fileA.convFails) ∧
    (basename fileB.path ∈
      (process_existing_files id (initState
        ["input/a.csv", "input/b.csv"]) [fileB] true).archive ∧
    is_file_processed (process_existing_files id (initState
      ["input/a.csv", "input/b.csv"]) [fileB] true).db fileB.path =
        !fileB.convFails ∧
    basename fileB.path ∈
      (handler_process id (initState ["input/a.csv", "input/b.csv"])
        fileB true).archive ∧
    (handler_process id (initState ["input/a.csv", "input/b.csv"])
      fileB false).archive = [] ∧
    is_file_processed (handler_process id (initState
      ["input/a.csv", "input/b.csv"]) fileB false).db fileB.path =
        !fileB.convFails) :=
  ⟨c5_archive_vs_record_characterization id
    ["input/a.csv", "input/b.csv"] fileA rfl,
   c5_archive_vs_record_characterization id
    ["input/a.csv", "input/b.csv"] fileB rfl⟩

/-- C8 counterexample: a successful watch-triggered run on `fileB`
marks the file processed and exports the collaborator's artifacts, but
the rows merged into the `dataset` table are `fileB`'s raw CSV rows, not
the collaborator's output rows — the artifact row is absent from the
table, refuting the claim that the accumulator merges the rows read back
from the collaborator's output location. -/
theorem c8_raw_rows_merged_counterexample :
    is_file_processed (handler_process id startState fileB true).db
      fileB.path = true ∧
    (handler_process id startState fileB true).output =
      [fileB.converted] ∧
    [("Y", "b1")] ∈
      (handler_process id startState fileB true).db.dataset_rows ∧
    [("FY", "fb")] ∉
      (handler_process id startState fileB true).db.dataset_rows := by
  decide

/-- C8 (amended): when the collaborator succeeds on a file,
`convert_csv_to_focus` calls `mark_file_as_processed` and exports the
collaborator's artifacts to the output folder, but the rows the dataset
accumulator merges are re-read from the source CSV path (date-normalized
raw rows), not read back from the collaborator's output location. -/
theorem c8_success_merges_raw_rows (toDT : String → String)
    (inputs : List String) (f : FileSpec)
    (hc : f.convFails = false) (hr : f.readFails = false) :
    is_file_processed (handler_process toDT (initState inputs)
      f true).db f.path = true ∧
    (handler_process toDT (initState inputs) f true).output =
      [f.converted] ∧
    (handler_process toDT (initState inputs) f true).db.dataset_rows =
      (normalizeDates toDT f.raw).rows := by
  simp [handler_process, convert_csv_to_focus, build_dataset,
    concatDataFrames, store_in_db, add_missing_columns,
    mark_file_as_processed, archive_file, initState, init_db,
    is_file_processed, hc, hr]

/-- Witness for C8 (amended) at the concrete succeeding file. -/
theorem c8_success_merges_raw_rows_witness :
    is_file_processed (handler_process id (initState
      ["input/a.csv", "input/b.csv"]) fileB true).db fileB.path = true ∧
    (handler_process id (initState ["input/a.csv", "input/b.csv"])
      fileB true).output = [fileB.converted] ∧
    (handler_process id (initState ["input/a.csv", "input/b.csv"])
      fileB true).db.dataset_rows = (normalizeDates id fileB.raw).rows :=
  c8_success_merges_raw_rows id ["input/a.csv", "input/b.csv"]
    fileB rfl rfl

/-- Witness for C10 at the concrete fresh state and failing file. -/
theorem c10_raise_iff_already_processed_witness :
    ((convert_csv_to_focus startState fileA).2.result =
        ConvResult.raisedAlreadyProcessed ↔
      is_file_processed startState.db fileA.path = true) ∧
    (is_file_processed startState.db fileA.path = false →
      (convert_csv_to_focus startState fileA).2.result =
        ConvResult.returnedNone) :=
  c10_raise_iff_already_processed startState fileA

end FocusPipeline
